import Mathlib

/-!
Verification of the rule-based domain classifier and recommendation engine
of the Bivenue Copilot repository.

Shallow embedding of:
- `src/engine/classifier.py` (`classify_domain`),
- `src/engine/generator.py` (`generate_recommendations`),
- `src/engine/llm.py` (`_get_client`, `generate_ai_analysis`).

Python's `kw in text` is substring containment, modelled by `containsSub`;
Python's `str.lower()` is modelled by per-character case folding with
`Char.toLower` (basic-latin folding, which agrees with CPython on all
basic-latin text; every keyword in the program is basic-latin).
-/

set_option maxRecDepth 40000
set_option linter.unusedVariables false

namespace Bivenue

/-- Substring occurrence on character lists: `infixOf pat hay = true` iff
`pat` occurs contiguously inside `hay`.  Embeds Python's `pat in hay`. -/
def infixOf (pat : List Char) : List Char → Bool
  | [] => pat.isEmpty
  | c :: rest => pat.isPrefixOf (c :: rest) || infixOf pat rest

/-- Python's `pat in hay` for strings. -/
def containsSub (hay pat : String) : Bool :=
  infixOf pat.data hay.data

/-- Python's `text.lower()` (basic-latin case folding). -/
def lowerStr (s : String) : String :=
  ⟨s.data.map Char.toLower⟩

/-- `infixOf` decides list-infix occurrence. -/
theorem infixOf_iff_infix (pat hay : List Char) :
    infixOf pat hay = true ↔ pat <:+: hay := by
  induction hay with
  | nil =>
      simp [infixOf, List.isEmpty_iff]
  | cons c t ih =>
      simp [infixOf, List.infix_cons_iff, ih]

/-- `containsSub` decides string-level substring occurrence. -/
theorem containsSub_iff (hay pat : String) :
    containsSub hay pat = true ↔ pat.data <:+: hay.data :=
  infixOf_iff_infix pat.data hay.data

theorem toNat_ofNat_of_valid {n : Nat} (h : n.isValidChar) :
    (Char.ofNat n).toNat = n := by
  simp only [Char.ofNat, dif_pos h, Char.ofNatAux, Char.toNat]
  rfl

/-- Basic-latin case folding is idempotent. -/
theorem toLower_toLower (c : Char) : c.toLower.toLower = c.toLower := by
  by_cases h : c.toNat ≥ 65 ∧ c.toNat ≤ 90
  · have hv : (c.toNat + 32).isValidChar := Or.inl (by omega)
    have ht : (Char.ofNat (c.toNat + 32)).toNat = c.toNat + 32 :=
      toNat_ofNat_of_valid hv
    simp only [Char.toLower, if_pos h, ht]
    rw [if_neg]
    omega
  · simp only [Char.toLower, if_neg h]

/-- Lowercasing a string is idempotent. -/
theorem lowerStr_idem (s : String) : lowerStr (lowerStr s) = lowerStr s := by
  simp only [lowerStr, List.map_map]
  exact congrArg String.mk (List.map_congr_left fun c _ => toLower_toLower c)

/-- Embeds `classify_domain` from `src/engine/classifier.py`. -/
def classify_domain (text : String) : String :=
  let t := lowerStr text
  if containsSub t "intercompany" then "Intercompany"
  else if containsSub t "consolidation" then "Consolidation"
  else if containsSub t "p2p" || containsSub t "procure" then "P2P"
  else if containsSub t "o2c" || containsSub t "order" then "O2C"
  else if containsSub t "r2r" || containsSub t "record" || containsSub t "close"
    then "R2R"
  else "General Finance"

/-- The string returned by `generate_recommendations` for `"Intercompany"`
(`src/engine/generator.py`, transcribed byte for byte). -/
def intercompanyBlock : String :=
"
        🔍 **Intercompany Root Cause Diagnosis**
        - Mismatched transaction timing
        - Lack of automated matching rules
        - Missing entity-level reconciliation governance

        🚀 **Recommended Actions**
        1. Implement automated IC reconciliation in SAP / Oracle.
        2. Create standardized IC templates & entity-level deadlines.
        3. Introduce rule-based matching (amount, currency, tolerance).
        "

/-- The string returned for `"Consolidation"`. -/
def consolidationBlock : String :=
"
        🔍 **Consolidation Root Cause Diagnosis**
        - Late submissions from entities
        - Manual consolidation adjustments
        - Lack of validations before group close

        🚀 **Recommended Actions**
        1. Introduce pre-close validation checks.
        2. Automate consolidation journals in BlackLine / OneStream.
        3. Enforce entity-level submission SLAs.
        "

/-- The string returned for `"P2P"`. -/
def p2pBlock : String :=
"
        🔍 **P2P Diagnosis**
        - Invoice exceptions causing delays
        - Vendor master inconsistencies
        - Manual PO approvals

        🚀 **Recommended Actions**
        1. Implement 3-way match automation.
        2. Establish vendor master governance.
        3. Digitize PO approval workflow.
        "

/-- The string returned for `"O2C"`. -/
def o2cBlock : String :=
"
        🔍 **O2C Diagnosis**
        - Delayed billing
        - Manual cash application
        - Credit management inefficiencies

        🚀 **Recommended Actions**
        1. Automate billing triggers.
        2. Deploy cash application tools (HighRadius).
        3. Implement credit scoring & DSO dashboards.
        "

/-- The string returned for `"R2R"`. -/
def r2rBlock : String :=
"
        🔍 **R2R Diagnosis**
        - Manual journal entries
        - Delayed reconciliations
        - Lack of standardized close checklist

        🚀 **Recommended Actions**
        1. Automate recurring journals in ERP.
        2. Implement BlackLine reconciliations.
        3. Deploy a global month-end close calendar.
        "

/-- The string returned by the final (default) `return`. -/
def generalBlock : String :=
"
    🚀 **General Transformation Recommendations**
    1. Assess AS-IS → TO-BE processes.
    2. Define automation roadmap.
    3. Standardize controls & governance.
    4. Align Process + Tech + Data + People.
    "

/-- Embeds `generate_recommendations` from `src/engine/generator.py`:
a chain of exact string-equality tests on `domain`; `text` is accepted but
never consulted. -/
def generate_recommendations (domain : String) (text : String) : String :=
  if domain = "Intercompany" then intercompanyBlock
  else if domain = "Consolidation" then consolidationBlock
  else if domain = "P2P" then p2pBlock
  else if domain = "O2C" then o2cBlock
  else if domain = "R2R" then r2rBlock
  else generalBlock

theorem gen_intercompany (t : String) :
    generate_recommendations "Intercompany" t = intercompanyBlock := rfl

theorem gen_consolidation (t : String) :
    generate_recommendations "Consolidation" t = consolidationBlock := rfl

theorem gen_p2p (t : String) :
    generate_recommendations "P2P" t = p2pBlock := rfl

theorem gen_o2c (t : String) :
    generate_recommendations "O2C" t = o2cBlock := rfl

theorem gen_r2r (t : String) :
    generate_recommendations "R2R" t = r2rBlock := rfl

/-- Any label other than the five exact branch labels reaches the default
`return`. -/
theorem gen_default (d t : String)
    (h1 : d ≠ "Intercompany") (h2 : d ≠ "Consolidation") (h3 : d ≠ "P2P")
    (h4 : d ≠ "O2C") (h5 : d ≠ "R2R") :
    generate_recommendations d t = generalBlock := by
  simp [generate_recommendations, h1, h2, h3, h4, h5]

/-! ### Line-level structure of the blocks

Helpers that read a block's Markdown-ish structure: its lines, the
root-cause bullet lines (`- ` after indentation) and the numbered action
lines (`1. `, `2. `, ...). -/

/-- Split a character list at newline characters. -/
def splitLines (l : List Char) : List (List Char) :=
  match l with
  | [] => [[]]
  | c :: rest =>
      match splitLines rest with
      | [] => [[c]]
      | h :: t => if c = '\n' then [] :: h :: t else (c :: h) :: t

/-- Drop leading space characters. -/
def dropSpaces : List Char → List Char
  | [] => []
  | c :: rest => if c = ' ' then dropSpaces rest else c :: rest

/-- A root-cause bullet line: after indentation it starts with `- `. -/
def isBulletLine (l : List Char) : Bool :=
  match dropSpaces l with
  | a :: b :: _ => a = '-' && b = ' '
  | _ => false

/-- A numbered action line: after indentation it starts with a digit
followed by `. `. -/
def isNumberedLine (l : List Char) : Bool :=
  match dropSpaces l with
  | a :: b :: c :: _ => a.isDigit && b = '.' && c = ' '
  | _ => false

/-- Number of root-cause bullet lines in a block. -/
def bulletCount (s : String) : Nat :=
  ((splitLines s.data).filter isBulletLine).length

/-- Number of numbered action lines in a block. -/
def numberedCount (s : String) : Nat :=
  ((splitLines s.data).filter isNumberedLine).length

example : bulletCount intercompanyBlock = 3 := by decide
example : numberedCount intercompanyBlock = 3 := by decide
example : bulletCount generalBlock = 0 := by decide
example : numberedCount generalBlock = 4 := by decide
example : containsSub p2pBlock "Root Cause Diagnosis" = false := by decide
example : containsSub p2pBlock "Diagnosis" = true := by decide

example : classify_domain "" = "General Finance" := by decide
example : classify_domain "We have INTERCOMPANY mismatches" = "Intercompany" := by decide
example : classify_domain "intercompany and p2p issues" = "Intercompany" := by decide
example : classify_domain "vendor procure cycle is broken" = "P2P" := by decide
example : classify_domain "order to cash delays" = "O2C" := by decide
example : classify_domain "close process record errors" = "R2R" := by decide

/-! ### Spec-side classifier

`classify_spec` is written from the spec's words (ordered rule list,
first-match-wins, case-insensitive substring containment, default label),
to be compared against the code-side `classify_domain`. -/

/-- The fixed ordered rule list stated by the spec, highest priority
first. -/
def specRules : List (List String × String) :=
  [(["intercompany"], "Intercompany"),
   (["consolidation"], "Consolidation"),
   (["p2p", "procure"], "P2P"),
   (["o2c", "order"], "O2C"),
   (["r2r", "record", "close"], "R2R")]

/-- Label of the first rule any of whose keywords occurs in the (already
lowercased) text. -/
def firstMatch (lowered : String) : List (List String × String) → Option String
  | [] => none
  | rule :: rest =>
      if rule.1.any (fun kw => containsSub lowered kw) then some rule.2
      else firstMatch lowered rest

/-- Spec-side classifier, from the spec's words: lowercase the input, scan
the ordered rule list, return the first matching rule's label, and the
default label when no keyword occurs.  Label spellings follow the code
(see C10 for the default label's exact spelling). -/
def classify_spec (s : String) : String :=
  (firstMatch (lowerStr s) specRules).getD "General Finance"

theorem classify_eq_spec (s : String) : classify_domain s = classify_spec s := by
  cases h1 : containsSub (lowerStr s) "intercompany" <;>
  cases h2 : containsSub (lowerStr s) "consolidation" <;>
  cases h3 : containsSub (lowerStr s) "p2p" <;>
  cases h4 : containsSub (lowerStr s) "procure" <;>
  cases h5 : containsSub (lowerStr s) "o2c" <;>
  cases h6 : containsSub (lowerStr s) "order" <;>
  cases h7 : containsSub (lowerStr s) "r2r" <;>
  cases h8 : containsSub (lowerStr s) "record" <;>
  cases h9 : containsSub (lowerStr s) "close" <;>
  simp [classify_domain, classify_spec, specRules, firstMatch,
    h1, h2, h3, h4, h5, h6, h7, h8, h9]

/-! ### Whitespace-only inputs -/

theorem toLower_of_whitespace {c : Char} (h : c.isWhitespace) : c.toLower = c := by
  simp [Char.isWhitespace] at h
  rcases h with ((h | h) | h) | h <;> subst h <;> decide

/-- On a whitespace-only string, no keyword containing a non-whitespace
character occurs in the lowercased input. -/
theorem containsSub_lower_eq_false_of_whitespace {s : String}
    (hs : ∀ c ∈ s.data, c.isWhitespace) {kw : String} {d : Char}
    (hd : d ∈ kw.data) (hdw : d.isWhitespace = false) :
    containsSub (lowerStr s) kw = false := by
  by_contra h
  rw [Bool.not_eq_false, containsSub_iff] at h
  have hmem : d ∈ (lowerStr s).data := h.subset hd
  simp only [lowerStr, List.mem_map] at hmem
  obtain ⟨c, hc, hcd⟩ := hmem
  have hw := hs c hc
  rw [toLower_of_whitespace hw] at hcd
  subst hcd
  rw [hw] at hdw
  exact absurd hdw (by decide)

theorem classify_whitespace {s : String} (hs : ∀ c ∈ s.data, c.isWhitespace) :
    classify_domain s = "General Finance" := by
  have h1 := @containsSub_lower_eq_false_of_whitespace s hs "intercompany" 'i'
    (by decide) (by decide)
  have h2 := @containsSub_lower_eq_false_of_whitespace s hs "consolidation" 'c'
    (by decide) (by decide)
  have h3 := @containsSub_lower_eq_false_of_whitespace s hs "p2p" 'p'
    (by decide) (by decide)
  have h4 := @containsSub_lower_eq_false_of_whitespace s hs "procure" 'p'
    (by decide) (by decide)
  have h5 := @containsSub_lower_eq_false_of_whitespace s hs "o2c" 'o'
    (by decide) (by decide)
  have h6 := @containsSub_lower_eq_false_of_whitespace s hs "order" 'o'
    (by decide) (by decide)
  have h7 := @containsSub_lower_eq_false_of_whitespace s hs "r2r" 'r'
    (by decide) (by decide)
  have h8 := @containsSub_lower_eq_false_of_whitespace s hs "record" 'r'
    (by decide) (by decide)
  have h9 := @containsSub_lower_eq_false_of_whitespace s hs "close" 'c'
    (by decide) (by decide)
  simp [classify_domain, h1, h2, h3, h4, h5, h6, h7, h8, h9]

/-! ### LLM layer (`src/engine/llm.py`) -/

/-- Errors raised by the LLM layer: `llmNotConfigured` embeds the
`LLMNotConfigured` exception, `runtimeError` embeds the `RuntimeError`
raised on an empty response. -/
inductive LLMError where
  | llmNotConfigured (msg : String)
  | runtimeError (msg : String)
deriving DecidableEq

/-- The `LLMNotConfigured` message text from `_get_client`. -/
def llmNotConfiguredMsg : String :=
  "AI analysis is not configured yet. Please add OPENAI_API_KEY to your Streamlit secrets or environment."

/-- Python truthiness of an `os.getenv` result: `None` and `""` are falsy. -/
def envTruthy : Option String → Bool
  | none => false
  | some v => !v.isEmpty

/-- Embeds `_get_client`: raises `LLMNotConfigured` when the key is unset
or empty, otherwise returns the key (standing for the `OpenAI` client it
configures). -/
def get_client (apiKeyEnv : Option String) : Except LLMError String :=
  if envTruthy apiKeyEnv then Except.ok (apiKeyEnv.getD "")
  else Except.error (LLMError.llmNotConfigured llmNotConfiguredMsg)

/-- Embeds `generate_ai_analysis`.  The outbound
`client.chat.completions.create` call is the external completion service,
abstracted as the oracle `net`: it maps the configured client (its API key)
and the request contents (problem, domain, rule-based summary) to the
optional message content, `none` modelling an absent message/content.
`_get_client` runs first; the oracle is consulted only on its success. -/
def generate_ai_analysis (apiKeyEnv : Option String)
    (net : String → String → String → String → Option String)
    (problem domain ruleSummary : String) : Except LLMError String :=
  match get_client apiKeyEnv with
  | Except.error e => Except.error e
  | Except.ok client =>
      match net client problem domain ruleSummary with
      | none => Except.error (LLMError.runtimeError "LLM returned an empty response.")
      | some content =>
          if content.isEmpty then
            Except.error (LLMError.runtimeError "LLM returned an empty response.")
          else Except.ok content.trim

/-- A recommendation block with a diagnosis section, a "Recommended
Actions" section, exactly 3 root-cause bullets and exactly 3 numbered
actions. -/
def hasDiagnosisAndActions (block : String) : Prop :=
  containsSub block "Diagnosis" = true ∧
  containsSub block "Recommended Actions" = true ∧
  bulletCount block = 3 ∧
  numberedCount block = 3

/-! ### Claims -/

/-- C1: `classify_domain` lowercases its input and performs substring
containment tests against the fixed ordered rule list (Intercompany,
Consolidation, P2P, O2C, R2R with their keyword sets), returning the label
of the first rule any of whose keywords occurs in the lowercased input,
and the default label when no keyword occurs — in particular for the empty
string and for whitespace-only strings.  The code-side classifier agrees
with the spec-side rule-list classifier on every input. -/
theorem C1_classifier_refines_rule_list :
    (∀ s : String, classify_domain s = classify_spec s) ∧
    classify_domain "" = "General Finance" ∧
    (∀ s : String, (∀ c ∈ s.data, c.isWhitespace) →
      classify_domain s = "General Finance") :=
  ⟨classify_eq_spec, by decide, fun _ hs => classify_whitespace hs⟩

/-- C1 witness: the whitespace-only hypothesis discharged at a concrete
three-space input. -/
theorem C1_classifier_refines_rule_list_witness :
    (∀ c ∈ ("   " : String).data, c.isWhitespace) ∧
    classify_domain "   " = "General Finance" :=
  ⟨by decide, C1_classifier_refines_rule_list.2.2 "   " (by decide)⟩

/-- C2: for every string, `classify_domain` returns one of the six labels
of the closed DomainLabel set (never anything else, never a failure), and
the round trip `generate_recommendations (classify_domain s) s` always
produces one of the six defined recommendation blocks. -/
theorem C2_total_and_round_trip (s : String) :
    classify_domain s ∈
      ["Intercompany", "Consolidation", "P2P", "O2C", "R2R", "General Finance"] ∧
    generate_recommendations (classify_domain s) s ∈
      [intercompanyBlock, consolidationBlock, p2pBlock, o2cBlock, r2rBlock,
        generalBlock] := by
  simp only [classify_domain]
  split_ifs <;> simp [generate_recommendations]

/-- C3 counterexample: for the default label of the closed DomainLabel set
(spelled `"General Finance"` by the code, see C10), the block returned by
`generate_recommendations` has no root-cause bullet list and contains
neither a "Root Cause Diagnosis" nor a "Recommended Actions" section; the
P2P block, too, contains no section named "Root Cause Diagnosis" (its
header reads "P2P Diagnosis"). -/
theorem C3_counterexample :
    generate_recommendations "General Finance" "any text" = generalBlock ∧
    generate_recommendations "GeneralFinance" "any text" = generalBlock ∧
    bulletCount generalBlock = 0 ∧
    containsSub generalBlock "Root Cause Diagnosis" = false ∧
    containsSub generalBlock "Recommended Actions" = false ∧
    containsSub p2pBlock "Root Cause Diagnosis" = false := by
  refine ⟨rfl, rfl, ?_, ?_, ?_, ?_⟩ <;> decide

/-- C3 amended: for each of the five non-default labels, the returned
block has a diagnosis section (titled "... Root Cause Diagnosis" for
Intercompany and Consolidation and "... Diagnosis" for P2P, O2C, R2R), a
"Recommended Actions" section, exactly 3 root-cause bullets and exactly 3
numbered actions, independent of the problem text; the default label
yields the general block: a four-step numbered transformation checklist
with no root-cause bullets and no diagnosis/actions sections. -/
theorem C3_amended_block_structure (t : String) :
    hasDiagnosisAndActions (generate_recommendations "Intercompany" t) ∧
    hasDiagnosisAndActions (generate_recommendations "Consolidation" t) ∧
    hasDiagnosisAndActions (generate_recommendations "P2P" t) ∧
    hasDiagnosisAndActions (generate_recommendations "O2C" t) ∧
    hasDiagnosisAndActions (generate_recommendations "R2R" t) ∧
    containsSub (generate_recommendations "Intercompany" t)
      "Root Cause Diagnosis" = true ∧
    containsSub (generate_recommendations "Consolidation" t)
      "Root Cause Diagnosis" = true ∧
    generate_recommendations "General Finance" t = generalBlock ∧
    numberedCount generalBlock = 4 ∧
    bulletCount generalBlock = 0 := by
  rw [gen_intercompany, gen_consolidation, gen_p2p, gen_o2c, gen_r2r]
  unfold hasDiagnosisAndActions
  refine ⟨⟨?_, ?_, ?_, ?_⟩, ⟨?_, ?_, ?_, ?_⟩, ⟨?_, ?_, ?_, ?_⟩, ⟨?_, ?_, ?_, ?_⟩,
    ⟨?_, ?_, ?_, ?_⟩, ?_, ?_, rfl, ?_, ?_⟩ <;> decide

/-- C4: first-match-wins priority — any input whose lowercased form
contains "intercompany" classifies as Intercompany, whatever other
keywords it contains; in particular for the spec's example and for a
mixed-case variant. -/
theorem C4_priority_order :
    (∀ s : String, containsSub (lowerStr s) "intercompany" = true →
      classify_domain s = "Intercompany") ∧
    classify_domain "intercompany and p2p issues" = "Intercompany" ∧
    classify_domain "INTERCOMPANY overlaps P2P" = "Intercompany" := by
  refine ⟨?_, by decide, by decide⟩
  intro s h
  simp [classify_domain, h]

/-- C4 witness: the containment hypothesis discharged at the spec's own
example input. -/
theorem C4_priority_order_witness :
    containsSub (lowerStr "intercompany and p2p issues") "intercompany" = true ∧
    classify_domain "intercompany and p2p issues" = "Intercompany" :=
  ⟨by decide, C4_priority_order.1 "intercompany and p2p issues" (by decide)⟩

/-- C5: `classify_domain` is case-insensitive — it returns the same label
on a string and on its lowercased form, and the spec's mixed-case example
classifies as Intercompany. -/
theorem C5_case_insensitive :
    (∀ s : String, classify_domain (lowerStr s) = classify_domain s) ∧
    classify_domain "We have INTERCOMPANY mismatches" = "Intercompany" := by
  refine ⟨?_, by decide⟩
  intro s
  simp only [classify_domain, lowerStr_idem]

/-- C6: `generate_recommendations` is independent of its `text` argument —
for any label and any two texts the returned blocks are equal. -/
theorem C6_text_independent (label t1 t2 : String) :
    generate_recommendations label t1 = generate_recommendations label t2 := rfl

/-- C7: any label outside the five exactly-matched branch labels — in
particular any out-of-range label string — falls through to the general
(default) block; the function is total and never fails. -/
theorem C7_default_fallback (d t : String)
    (h : d ∉ ["Intercompany", "Consolidation", "P2P", "O2C", "R2R"]) :
    generate_recommendations d t = generalBlock := by
  simp only [List.mem_cons, List.not_mem_nil, or_false, not_or] at h
  exact gen_default d t h.1 h.2.1 h.2.2.1 h.2.2.2.1 h.2.2.2.2

/-- C7 witness: the out-of-range hypothesis discharged at the label
"GeneralFinance". -/
theorem C7_default_fallback_witness :
    ("GeneralFinance" ∉ ["Intercompany", "Consolidation", "P2P", "O2C", "R2R"]) ∧
    generate_recommendations "GeneralFinance" "any problem" = generalBlock :=
  ⟨by decide, C7_default_fallback "GeneralFinance" "any problem" (by decide)⟩

/-- C8: `classify_domain` and `generate_recommendations` are deterministic
pure functions — two calls with equal arguments return equal results (both
are embedded as total functions of their arguments alone, mirroring that
the Python bodies read and write no external state). -/
theorem C8_deterministic (s1 s2 d1 d2 t1 t2 : String)
    (hs : s1 = s2) (hd : d1 = d2) (ht : t1 = t2) :
    classify_domain s1 = classify_domain s2 ∧
    generate_recommendations d1 t1 = generate_recommendations d2 t2 := by
  subst hs; subst hd; subst ht
  exact ⟨rfl, rfl⟩

/-- C8 witness: equal-argument calls at concrete inputs. -/
theorem C8_deterministic_witness :
    classify_domain "intercompany breaks" = classify_domain "intercompany breaks" ∧
    generate_recommendations "P2P" "x" = generate_recommendations "P2P" "x" :=
  C8_deterministic "intercompany breaks" "intercompany breaks" "P2P" "P2P" "x" "x"
    rfl rfl rfl

/-- C9: with `OPENAI_API_KEY` unset or empty, `generate_ai_analysis` fails
with the distinct `LLMNotConfigured` error uniformly in the network oracle
— the outcome is fixed before any network interaction, so no two oracles
can produce different results; `classify_domain` and
`generate_recommendations` take no LLM state at all (classifier.py and
generator.py import nothing from llm.py), so their results are computed
without consulting the LLM layer. -/
theorem C9_llm_not_configured (env : Option String)
    (h : env = none ∨ env = some "")
    (net net2 : String → String → String → String → Option String)
    (p d r : String) :
    generate_ai_analysis env net p d r =
      Except.error (LLMError.llmNotConfigured llmNotConfiguredMsg) ∧
    generate_ai_analysis env net p d r = generate_ai_analysis env net2 p d r := by
  rcases h with h | h <;> subst h <;> exact ⟨rfl, rfl⟩

/-- C9 witness: the missing-key hypothesis discharged with the unset
environment and two concrete oracles. -/
theorem C9_llm_not_configured_witness :
    ((none : Option String) = none ∨ (none : Option String) = some "") ∧
    generate_ai_analysis none (fun _ _ _ _ => some "a brief") "p" "Intercompany"
      "summary" =
      Except.error (LLMError.llmNotConfigured llmNotConfiguredMsg) :=
  ⟨Or.inl rfl,
    (C9_llm_not_configured none (Or.inl rfl) (fun _ _ _ _ => some "a brief")
      (fun _ _ _ _ => none) "p" "Intercompany" "summary").1⟩

/-- C10: `generate_recommendations` matches its label by exact,
case-sensitive string equality — labels differing in casing or spelling
("intercompany", "R2r", "GeneralFinance") receive the default general
block; the default label produced by `classify_domain` is the exact string
"General Finance" (with a space, never the spec's spelling
"GeneralFinance"), which `generate_recommendations` handles only through
its default branch. -/
theorem C10_exact_label_matching :
    (∀ t, generate_recommendations "intercompany" t = generalBlock) ∧
    (∀ t, generate_recommendations "R2r" t = generalBlock) ∧
    (∀ t, generate_recommendations "GeneralFinance" t = generalBlock) ∧
    (∀ t, generate_recommendations "General Finance" t = generalBlock) ∧
    (∀ s, classify_domain s ≠ "GeneralFinance") ∧
    classify_domain "completely unrelated text" = "General Finance" := by
  refine ⟨fun t => rfl, fun t => rfl, fun t => rfl, fun t => rfl, ?_, by decide⟩
  intro s
  simp only [classify_domain]
  split_ifs <;> decide

end Bivenue
